import Mathlib

/-!
Verification of the resilient element-interaction layer of the
`xwp-automation` repository (files `src/utils/element.helper.ts`,
`src/utils/ai-context.utils.ts` (SmartLogger part) and
`src/utils/environment.utils.ts` (ErrorInspector part)).

The TypeScript code is shallowly embedded: async operations that can throw
become `Except String`-valued functions, the process-wide flags become
explicit boolean parameters, and waits/delays are recorded as explicit
traces.  Machine integers do not overflow in the modelled code paths, so
numbers are `Nat`.
-/

namespace XWP

/-! ## String primitives

JavaScript's `String.prototype.includes` is modelled on `List Char` by
`hasSub`, built from the prefix test `prefOf`.  `jsToLower` models
`String.prototype.toLowerCase` (the patterns involved are ASCII). -/

/-- Boolean prefix test on character lists (`pat` is a prefix of `s`). -/
def prefOf : List Char → List Char → Bool
  | [], _ => true
  | _ :: _, [] => false
  | a :: as, b :: bs => a == b && prefOf as bs

/-- Boolean substring test on character lists: JS `s.includes(pat)`. -/
def hasSub (pat : List Char) : List Char → Bool
  | [] => pat.isEmpty
  | s@(_ :: rest) => prefOf pat s || hasSub pat rest

/-- JS `t.includes(pat)` on strings. -/
def hasSubStr (pat t : String) : Bool :=
  hasSub pat.data t.data

/-- JS `s.toLowerCase()` (ASCII; the code only matches ASCII patterns). -/
def jsToLower (s : String) : String :=
  String.mk (s.data.map Char.toLower)

theorem prefOf_self (p : List Char) : prefOf p p = true := by
  induction p with
  | nil => rfl
  | cons a as ih => simp [prefOf, ih]

theorem prefOf_append (p q t : List Char) (h : prefOf p q = true) :
    prefOf p (q ++ t) = true := by
  induction p generalizing q with
  | nil => rfl
  | cons a as ih =>
    cases q with
    | nil => simp [prefOf] at h
    | cons b bs =>
      simp only [prefOf, Bool.and_eq_true, beq_iff_eq] at h
      simp [prefOf, h.1, ih bs h.2]

theorem hasSub_of_prefOf (p s : List Char) (h : prefOf p s = true) :
    hasSub p s = true := by
  cases s with
  | nil =>
    cases p with
    | nil => rfl
    | cons a as => simp [prefOf] at h
  | cons b bs => simp [hasSub, h]

theorem hasSub_append_right (p s t : List Char) (h : hasSub p t = true) :
    hasSub p (s ++ t) = true := by
  induction s with
  | nil => simpa using h
  | cons a as ih =>
    simp only [List.cons_append, hasSub, Bool.or_eq_true]
    exact Or.inr ih

/-- If `pat` occurs at the start of `q`, it occurs in `q ++ t`. -/
theorem hasSub_append_left (p q t : List Char) (h : prefOf p q = true) :
    hasSub p (q ++ t) = true :=
  hasSub_of_prefOf _ _ (prefOf_append p q t h)

/-! ## Retry Engine (`ElementHelper.retryOperation`, element.helper.ts 107-188)

The async operation is modelled as a function from the (1-based) attempt
number to an `Except` outcome; the engine is a pure function returning the
number of invocations actually made, the list of backoff delays slept
between attempts (in order), and the final result. -/

/-- Outcome of a `retryOperation` run: how many times the operation was
invoked, the delays slept before each retry, and the final result. -/
structure RunLog (T : Type) where
  invocations : Nat
  delays : List Nat
  result : Except String T
  deriving Repr

/-- `ElementHelper.isUnrecoverableError` patterns (element.helper.ts 175-183). -/
def unrecoverablePatterns : List String :=
  ["Element not found",
   "page has been closed",
   "context has been closed",
   "browser has been closed",
   "Navigation failed",
   "net::ERR_NAME_NOT_RESOLVED",
   "net::ERR_CONNECTION_REFUSED"]

/-- `ElementHelper.isUnrecoverableError` (element.helper.ts 174-188): the
error message contains one of the fatal patterns, case-insensitively. -/
def isUnrecoverableError (msg : String) : Bool :=
  unrecoverablePatterns.any fun pattern =>
    hasSubStr (jsToLower pattern) (jsToLower msg)

/-- Loop body of `ElementHelper.retryOperation` (element.helper.ts 116-165).
`attempt` is the current 1-based attempt number; `fuel` the number of
attempts still allowed including the current one (`maxRetries - attempt + 1`).
On a recoverable failure that is not the last attempt the code sleeps
`attempt === 1 ? 100 : baseDelay * 2^(attempt-2)` ms and loops. -/
def retryAux {T : Type} (op : Nat → Except String T) (baseDelay : Nat) :
    Nat → Nat → RunLog T
  | _, 0 => ⟨0, [], Except.error ""⟩
  | attempt, fuel + 1 =>
    match op attempt with
    | Except.ok v => ⟨1, [], Except.ok v⟩
    | Except.error e =>
      if isUnrecoverableError e then ⟨1, [], Except.error e⟩
      else if fuel = 0 then ⟨1, [], Except.error e⟩
      else
        let delay := if attempt = 1 then 100 else baseDelay * 2 ^ (attempt - 2)
        let rest := retryAux op baseDelay (attempt + 1) fuel
        ⟨rest.invocations + 1, delay :: rest.delays, rest.result⟩

/-- `ElementHelper.retryOperation` (element.helper.ts 107-168). -/
def retryOperation {T : Type} (op : Nat → Except String T)
    (maxRetries baseDelay : Nat) : RunLog T :=
  retryAux op baseDelay 1 maxRetries

/-- JS `x || d` for a possibly-NaN number `x` (`none` = NaN): falsy values
(0, NaN) give the default. -/
def jsOrNat : Option Nat → Nat → Nat
  | none, d => d
  | some 0, d => d
  | some n, _ => n

/-- JS `parseInt(s, 10)` restricted to non-negative results: the leading
run of decimal digits, or NaN (`none`) if there is none. -/
def jsParseInt (s : String) : Option Nat :=
  let digits := s.data.takeWhile Char.isDigit
  if digits.isEmpty then none
  else some (digits.foldl (fun acc c => acc * 10 + (c.toNat - '0'.toNat)) 0)

/-- `EnvironmentManager.loadConfiguration().retries`
(environment.utils.ts 32): `parseInt(process.env.TEST_RETRIES || '1')`,
as a function of the `TEST_RETRIES` environment variable. -/
def configRetries (testRetriesEnv : Option String) : Option Nat :=
  jsParseInt (testRetriesEnv.getD "1")

/-- `ElementHelper.MAX_RETRIES` (element.helper.ts 44):
`envManager.getConfig().retries || 3`, as a function of the
`TEST_RETRIES` environment variable. -/
def MAX_RETRIES (testRetriesEnv : Option String) : Nat :=
  jsOrNat (configRetries testRetriesEnv) 3

/-- `ElementHelper.BASE_RETRY_DELAY` (element.helper.ts 46). -/
def BASE_RETRY_DELAY : Nat := 500

/-- Delay slept after the failed attempt number `attempt`
(element.helper.ts 161): `attempt === 1 ? 100 : baseDelay * 2^(attempt-2)`. -/
def jsDelay (baseDelay attempt : Nat) : Nat :=
  if attempt = 1 then 100 else baseDelay * 2 ^ (attempt - 2)

/-- The delays a run starting at attempt `attempt` sleeps over `m` retries. -/
def delaysFrom (baseDelay attempt m : Nat) : List Nat :=
  (List.range m).map fun k => jsDelay baseDelay (attempt + k)

theorem delaysFrom_succ (baseDelay attempt m : Nat) :
    delaysFrom baseDelay attempt (m + 1) =
      jsDelay baseDelay attempt :: delaysFrom baseDelay (attempt + 1) m := by
  have h : (fun k => jsDelay baseDelay (attempt + Nat.succ k)) =
      fun k => jsDelay baseDelay (attempt + 1 + k) :=
    funext fun k => congrArg (jsDelay baseDelay) (by omega)
  simp [delaysFrom, List.range_succ_eq_map, List.map_map, Function.comp_def, h]

/-- One loop step of `retryAux` on a recoverable failure that is not the
last allowed attempt: sleep the coded delay and loop. -/
theorem retryAux_cons {T : Type} (op : Nat → Except String T)
    (baseDelay attempt f : Nat) (e : String)
    (hop : op attempt = Except.error e)
    (hrec : isUnrecoverableError e = false) (hf : f ≠ 0) :
    retryAux op baseDelay attempt (f + 1) =
      ⟨(retryAux op baseDelay (attempt + 1) f).invocations + 1,
       jsDelay baseDelay attempt :: (retryAux op baseDelay (attempt + 1) f).delays,
       (retryAux op baseDelay (attempt + 1) f).result⟩ := by
  simp [retryAux, hop, hrec, hf, jsDelay]

/-- Characterization of `retryAux` when every attempt fails with a
recoverable error: all attempts are consumed, the coded backoff schedule is
slept, and the last error is rethrown. -/
theorem retryAux_all_recoverable_fail {T : Type} (op : Nat → Except String T)
    (err : Nat → String) (baseDelay : Nat)
    (hop : ∀ n, op n = Except.error (err n))
    (hrec : ∀ n, isUnrecoverableError (err n) = false) :
    ∀ m attempt,
      retryAux op baseDelay attempt (m + 1) =
        ⟨m + 1, delaysFrom baseDelay attempt m,
         Except.error (err (attempt + m))⟩ := by
  intro m
  induction m with
  | zero =>
    intro attempt
    simp [retryAux, hop attempt, hrec attempt, delaysFrom]
  | succ g ih =>
    intro attempt
    rw [retryAux_cons op baseDelay attempt (g + 1) (err attempt) (hop attempt)
      (hrec attempt) (Nat.succ_ne_zero g), ih (attempt + 1), delaysFrom_succ]
    have hidx : attempt + 1 + g = attempt + (g + 1) := by omega
    simp [hidx]

/-- The Retry Engine invokes the operation at most `maxRetries` times on any
input. -/
theorem retryAux_invocations_le {T : Type} (op : Nat → Except String T)
    (baseDelay : Nat) :
    ∀ fuel attempt, (retryAux op baseDelay attempt fuel).invocations ≤ fuel := by
  intro fuel
  induction fuel with
  | zero => intro attempt; simp [retryAux]
  | succ f ih =>
    intro attempt
    simp only [retryAux]
    cases op attempt with
    | ok v => simp
    | error e =>
      by_cases h1 : isUnrecoverableError e = true
      · simp [h1]
      · by_cases h2 : f = 0
        · simp [h1, h2]
        · simpa [h1, h2] using ih (attempt + 1)

/-- C1 (amended): for an operation failing with a recoverable error on every
attempt, the Retry Engine invokes it exactly `maxAttempts` times (and at most
`maxAttempts` times on any operation), sleeps 100ms before the first retry
and `baseDelay * 2^(n-2)` before each subsequent retry `n`, rethrows the
last error after the final attempt — and the default `maxAttempts` under the
default environment (`TEST_RETRIES` unset, hence `'1'`) is 1, not 3. -/
theorem retryOperation_backoff_schedule {T : Type}
    (op : Nat → Except String T) (err : Nat → String)
    (maxRetries baseDelay : Nat) (hmax : 1 ≤ maxRetries)
    (hop : ∀ n, op n = Except.error (err n))
    (hrec : ∀ n, isUnrecoverableError (err n) = false) :
    (retryOperation op maxRetries baseDelay).invocations = maxRetries ∧
    (∀ op2 : Nat → Except String T,
      (retryOperation op2 maxRetries baseDelay).invocations ≤ maxRetries) ∧
    (retryOperation op maxRetries baseDelay).delays =
      (List.range (maxRetries - 1)).map
        (fun k => if k = 0 then 100 else baseDelay * 2 ^ (k - 1)) ∧
    (retryOperation op maxRetries baseDelay).result =
      Except.error (err maxRetries) ∧
    MAX_RETRIES none = 1 := by
  obtain ⟨m, rfl⟩ : ∃ m, maxRetries = m + 1 :=
    ⟨maxRetries - 1, by omega⟩
  have h := retryAux_all_recoverable_fail op err baseDelay hop hrec m 1
  rw [retryOperation, h]
  refine ⟨rfl, fun op2 => retryAux_invocations_le op2 baseDelay (m + 1) 1,
    ?_, by simp [Nat.add_comm 1 m], by decide⟩
  show delaysFrom baseDelay 1 m = _
  simp only [delaysFrom, Nat.add_sub_cancel]
  refine List.map_congr_left fun k _ => ?_
  simp only [jsDelay]
  rcases Nat.eq_zero_or_pos k with hk | hk
  · simp [hk]
  · have h1 : ¬ (1 + k = 1) := by omega
    have h2 : ¬ (k = 0) := by omega
    have h3 : 1 + k - 2 = k - 1 := by omega
    simp [h1, h2, h3]

/-- Witness for C1's theorem: an operation that always fails with the
recoverable message "timed out", `maxAttempts = 3`, `baseDelay = 500`:
3 invocations, delays `[100, 500]`, final rethrow. -/
theorem retryOperation_backoff_schedule_witness :
    (retryOperation (fun _ => (Except.error "timed out" : Except String Unit))
        3 500).invocations = 3 ∧
    (∀ op2 : Nat → Except String Unit,
      (retryOperation op2 3 500).invocations ≤ 3) ∧
    (retryOperation (fun _ => (Except.error "timed out" : Except String Unit))
        3 500).delays =
      (List.range 2).map (fun k => if k = 0 then 100 else 500 * 2 ^ (k - 1)) ∧
    (retryOperation (fun _ => (Except.error "timed out" : Except String Unit))
        3 500).result = Except.error "timed out" ∧
    MAX_RETRIES none = 1 := by
  have h : isUnrecoverableError "timed out" = false := by decide
  exact retryOperation_backoff_schedule (fun _ => Except.error "timed out")
    (fun _ => "timed out") 3 500 (by decide) (fun _ => rfl) (fun _ => h)

/-- Counterexample to C1 as stated: under the default environment
(`TEST_RETRIES` unset), `MAX_RETRIES = parseInt('1') || 3 = 1`, so the
engine's default attempt budget is 1 — a recoverably-failing operation is
invoked once, not 3 times. -/
theorem retryOperation_default_attempts_not_three :
    MAX_RETRIES none = 1 ∧
    (retryOperation (fun _ => (Except.error "timed out" : Except String Unit))
        (MAX_RETRIES none) BASE_RETRY_DELAY).invocations = 1 ∧
    ¬ (retryOperation (fun _ => (Except.error "timed out" : Except String Unit))
        (MAX_RETRIES none) BASE_RETRY_DELAY).invocations = 3 := by
  refine ⟨by decide, ?_, ?_⟩ <;> decide

/-- C2: an operation whose first failure message contains one of the
unrecoverable patterns (case-insensitively) is invoked exactly once, no
backoff delay is slept, and that error is rethrown immediately, regardless
of `maxAttempts`. -/
theorem retryOperation_unrecoverable_failfast {T : Type}
    (op : Nat → Except String T) (e : String) (maxRetries baseDelay : Nat)
    (hmax : 1 ≤ maxRetries) (hop : op 1 = Except.error e)
    (hpat : ∃ p ∈ unrecoverablePatterns,
      hasSubStr (jsToLower p) (jsToLower e) = true) :
    retryOperation op maxRetries baseDelay = ⟨1, [], Except.error e⟩ := by
  have hunrec : isUnrecoverableError e = true := by
    rcases hpat with ⟨p, hp, hsub⟩
    simp only [isUnrecoverableError, List.any_eq_true]
    exact ⟨p, hp, hsub⟩
  cases maxRetries with
  | zero => omega
  | succ m => simp [retryOperation, retryAux, hop, hunrec]

/-- Witness for C2's theorem: a "browser has been closed" failure with
`maxAttempts = 5` makes exactly one attempt and rethrows. -/
theorem retryOperation_unrecoverable_failfast_witness :
    retryOperation
        (fun _ => (Except.error "Target browser has been closed!"
          : Except String Unit)) 5 500 =
      ⟨1, [], Except.error "Target browser has been closed!"⟩ :=
  retryOperation_unrecoverable_failfast _ _ 5 500 (by decide) rfl
    ⟨"browser has been closed", by decide, by decide⟩

/-! ## Health Checker (`ElementHelper.checkElementHealth`, element.helper.ts 231-277)

A locator under inspection is modelled by the outcomes of the three async
calls the code makes on it (`count()`, `isVisible()`, `isEnabled()`), each
of which may itself throw.  The `try` block becomes `checkElementHealthE`
(error propagation through `Except`) and the `catch` clause is applied by
`checkElementHealth`. -/

/-- The `operationType` parameter of `checkElementHealth`. -/
inductive OpKind
  | click
  | fill
  | read
  deriving Repr, DecidableEq

/-- One locator as seen by the Health Checker: the results of the three
inspection calls the code performs (each may throw). -/
structure LocatorState where
  countRes : Except String Nat
  visibleRes : Except String Bool
  enabledRes : Except String Bool

/-- `{healthy, issues}` (element.helper.ts 234). -/
structure HealthReport where
  healthy : Bool
  issues : List String
  deriving Repr, DecidableEq

/-- The informational multiplicity note pushed at element.helper.ts 251. -/
def multipleNote (count : Nat) : String :=
  "Multiple elements found (" ++ toString count ++ "), using first one"

/-- Health verdict (element.helper.ts 271):
`issues.filter(issue => !issue.includes('Multiple elements')).length === 0`. -/
def healthyOf (issues : List String) : Bool :=
  (issues.filter fun issue => !(hasSubStr "Multiple elements" issue)).length == 0

/-- The `try` block of `checkElementHealth` (element.helper.ts 242-271):
sequential awaits with early propagation of any thrown error. -/
def checkElementHealthE (e : LocatorState) (operationType : OpKind) :
    Except String HealthReport :=
  match e.countRes with
  | Except.error msg => Except.error msg
  | Except.ok count =>
    if count = 0 then Except.ok ⟨false, ["Element not found in DOM"]⟩
    else
      let issues₁ := if count > 1 then [multipleNote count] else []
      match e.visibleRes with
      | Except.error msg => Except.error msg
      | Except.ok isVisible =>
        let issues₂ := issues₁ ++ (if isVisible then [] else ["Element is not visible"])
        if (operationType == OpKind.click || operationType == OpKind.fill)
            && isVisible then
          match e.enabledRes with
          | Except.error msg => Except.error msg
          | Except.ok isEnabled =>
            let issues₃ := issues₂ ++ (if isEnabled then [] else ["Element is disabled"])
            Except.ok ⟨healthyOf issues₃, issues₃⟩
        else
          Except.ok ⟨healthyOf issues₂, issues₂⟩

/-- `ElementHelper.checkElementHealth` (element.helper.ts 231-277): skipped
when the detailed-health-checks flag is off; otherwise runs the `try` block
and degrades any thrown error to a non-fatal skip report. -/
def checkElementHealth (enableHealthChecks : Bool) (e : LocatorState)
    (operationType : OpKind) : HealthReport :=
  if !enableHealthChecks then ⟨true, []⟩
  else
    match checkElementHealthE e operationType with
    | Except.ok r => r
    | Except.error msg => ⟨true, ["Health check skipped: " ++ msg]⟩

theorem strData_append (s t : String) : (s ++ t).data = s.data ++ t.data := rfl

theorem hasSubStr_multipleNote (c : Nat) :
    hasSubStr "Multiple elements" (multipleNote c) = true := by
  have hpre : prefOf "Multiple elements".data "Multiple elements found (".data
      = true := by decide
  have h1 := prefOf_append "Multiple elements".data
    "Multiple elements found (".data (toString c).data hpre
  have h2 := prefOf_append "Multiple elements".data
    ("Multiple elements found (".data ++ (toString c).data)
    "), using first one".data h1
  unfold hasSubStr multipleNote
  rw [strData_append, strData_append]
  exact hasSub_of_prefOf _ _ h2

/-- No fixed issue string other than the multiplicity note matches the
multiplicity note. -/
theorem ne_multipleNote_of_no_sub (s : String)
    (hs : hasSubStr "Multiple elements" s = false) (c : Nat) :
    s ≠ multipleNote c := by
  intro h
  rw [h, hasSubStr_multipleNote] at hs
  exact Bool.noConfusion hs

/-- C3: the Health Checker never raises — for every locator state (missing,
multiple matches, hidden, disabled) and even when an inspection call throws,
`checkElementHealth` returns a `HealthReport`; an internal failure degrades
to `{healthy: true, issues: ["Health check skipped: <reason>"]}` instead of
propagating. -/
theorem checkElementHealth_never_raises (e : LocatorState) (op : OpKind) :
    (∃ r : HealthReport, checkElementHealthE e op = Except.ok r ∧
      checkElementHealth true e op = r) ∨
    (∃ msg : String, checkElementHealthE e op = Except.error msg ∧
      checkElementHealth true e op =
        ⟨true, ["Health check skipped: " ++ msg]⟩) := by
  cases h : checkElementHealthE e op with
  | ok r => exact Or.inl ⟨r, rfl, by simp [checkElementHealth, h]⟩
  | error msg => exact Or.inr ⟨msg, rfl, by simp [checkElementHealth, h]⟩

theorem healthyOf_nil : healthyOf [] = true := by decide

theorem healthyOf_note (c : Nat) : healthyOf [multipleNote c] = true := by
  simp [healthyOf, hasSubStr_multipleNote c]

/-- The multiplicity-note-only issue lists are healthy and consist of notes. -/
theorem healthy_iff_of_notes_only (c : Nat) :
    (healthyOf (if c > 1 then [multipleNote c] else []) = true ↔
      ∀ i ∈ (if c > 1 then [multipleNote c] else []),
        ∃ d : Nat, i = multipleNote d) := by
  by_cases hc : c > 1
  · simp only [hc, if_true, healthyOf_note]
    simp only [List.mem_singleton, true_iff]
    intro i hi
    exact ⟨c, hi⟩
  · simp [hc, healthyOf_nil]

/-- An issue list ending in a non-multiplicity issue is unhealthy and is not
notes-only. -/
theorem healthy_iff_of_bad (c : Nat) (bad : String)
    (hbad : hasSubStr "Multiple elements" bad = false) :
    (healthyOf ((if c > 1 then [multipleNote c] else []) ++ [bad]) = true ↔
      ∀ i ∈ (if c > 1 then [multipleNote c] else []) ++ [bad],
        ∃ d : Nat, i = multipleNote d) := by
  constructor
  · intro h
    exfalso
    by_cases hc : c > 1 <;>
      simp [hc, healthyOf, hasSubStr_multipleNote, hbad] at h
  · intro h
    exfalso
    obtain ⟨d, hd⟩ := h bad (by simp)
    exact ne_multipleNote_of_no_sub bad hbad d hd

/-- C4: with detailed health checks disabled the Health Checker returns
`{healthy: true, issues: []}` without inspecting anything; when enabled and
the inspection completes, `healthy` is true exactly when the only issues (if
any) are the informational multiple-matches note, and a match count of zero
yields `{healthy: false, issues: ["Element not found in DOM"]}`. -/
theorem checkElementHealth_disabled_and_healthy_iff (e : LocatorState)
    (op : OpKind) :
    checkElementHealth false e op = ⟨true, []⟩ ∧
    ∀ r : HealthReport, checkElementHealthE e op = Except.ok r →
      ((r.healthy = true ↔ ∀ i ∈ r.issues, ∃ d : Nat, i = multipleNote d) ∧
       (e.countRes = Except.ok 0 →
         r = ⟨false, ["Element not found in DOM"]⟩)) := by
  refine ⟨rfl, ?_⟩
  intro r hr
  obtain ⟨cr, vr, er⟩ := e
  cases cr with
  | error m => simp [checkElementHealthE] at hr
  | ok c =>
    by_cases hc0 : c = 0
    · subst hc0
      simp only [checkElementHealthE, if_true, reduceCtorEq] at hr
      injection hr with hr
      subst hr
      refine ⟨⟨fun h => Bool.noConfusion h, fun h => ?_⟩, fun _ => rfl⟩
      obtain ⟨d, hd⟩ := h "Element not found in DOM" (by simp)
      exact absurd hd (ne_multipleNote_of_no_sub _ (by decide) d)
    · have hvac : (Except.ok c : Except String Nat) = Except.ok 0 →
          r = ⟨false, ["Element not found in DOM"]⟩ := by
        intro h
        injection h with h
        exact absurd h hc0
      cases vr with
      | error m => simp [checkElementHealthE, hc0, beq_iff_eq] at hr
      | ok v =>
        cases v with
        | false =>
          simp [checkElementHealthE, hc0, beq_iff_eq] at hr
          subst hr
          exact ⟨healthy_iff_of_bad c "Element is not visible" (by decide), hvac⟩
        | true =>
          cases op with
          | read =>
            simp [checkElementHealthE, hc0, beq_iff_eq] at hr
            subst hr
            exact ⟨healthy_iff_of_notes_only c, hvac⟩
          | click =>
            cases er with
            | error m => simp [checkElementHealthE, hc0, beq_iff_eq] at hr
            | ok en =>
              cases en with
              | true =>
                simp [checkElementHealthE, hc0, beq_iff_eq] at hr
                subst hr
                exact ⟨healthy_iff_of_notes_only c, hvac⟩
              | false =>
                simp [checkElementHealthE, hc0, beq_iff_eq] at hr
                subst hr
                exact ⟨healthy_iff_of_bad c "Element is disabled" (by decide), hvac⟩
          | fill =>
            cases er with
            | error m => simp [checkElementHealthE, hc0, beq_iff_eq] at hr
            | ok en =>
              cases en with
              | true =>
                simp [checkElementHealthE, hc0, beq_iff_eq] at hr
                subst hr
                exact ⟨healthy_iff_of_notes_only c, hvac⟩
              | false =>
                simp [checkElementHealthE, hc0, beq_iff_eq] at hr
                subst hr
                exact ⟨healthy_iff_of_bad c "Element is disabled" (by decide), hvac⟩

/-- Witness for C4's theorem: a duplicated selector (count 2, visible,
enabled) under a click: health stays `true` with only the multiplicity
note; disabled checks return `{healthy: true, issues: []}`. -/
theorem checkElementHealth_disabled_and_healthy_iff_witness :
    checkElementHealth false ⟨Except.ok 2, Except.ok true, Except.ok true⟩
        OpKind.click = ⟨true, []⟩ ∧
    ((HealthReport.healthy ⟨true, [multipleNote 2]⟩ = true ↔
        ∀ i ∈ (HealthReport.issues ⟨true, [multipleNote 2]⟩),
          ∃ d : Nat, i = multipleNote d) ∧
     ((Except.ok 2 : Except String Nat) = Except.ok 0 →
        (⟨true, [multipleNote 2]⟩ : HealthReport) =
          ⟨false, ["Element not found in DOM"]⟩)) := by
  have h := checkElementHealth_disabled_and_healthy_iff
    ⟨Except.ok 2, Except.ok true, Except.ok true⟩ OpKind.click
  exact ⟨h.1, h.2 ⟨true, [multipleNote 2]⟩ (by rfl)⟩

/-! ## Smart Wait Engine (`ElementHelper.smartWaitForElement`, element.helper.ts 194-225)

The sequence of awaits the function performs on its success path is recorded
as an ordered trace of steps. -/

/-- `ElementHelper.ANIMATION_DELAY` (element.helper.ts 40). -/
def ANIMATION_DELAY : Nat := 100

/-- The `conditions` object: each field may be absent (JS `undefined`). -/
structure WaitConditionSet where
  visible : Option Bool
  stable : Option Bool
  enabled : Option Bool
  hasText : Option Bool
  deriving Repr, DecidableEq

/-- One awaited step of `smartWaitForElement`. -/
inductive WaitStep
  | visibleWait (timeout : Nat)
  | stabilityDelay (ms : Nat)
  | enabledCheck (timeout : Nat)
  | hasTextCheck (timeout : Nat)
  deriving Repr, DecidableEq

/-- `ElementHelper.smartWaitForElement` (element.helper.ts 194-225) as the
ordered trace of awaits performed: destructuring with defaults
`{visible = true, stable = false, enabled = false, hasText = false}`, then
the visibility wait, then the stability delay gated by
`stable && (ENABLE_HEALTH_CHECKS || conditions.stable === true)`, then the
enabled and hasText checks. -/
def smartWaitForElement (enableHealthChecks : Bool)
    (conditions : WaitConditionSet) (timeout shortTimeout : Nat) :
    List WaitStep :=
  let visible := conditions.visible.getD true
  let stable := conditions.stable.getD false
  let enabled := conditions.enabled.getD false
  let hasText := conditions.hasText.getD false
  (if visible then [WaitStep.visibleWait timeout] else []) ++
  ((if stable && (enableHealthChecks || conditions.stable == some true) then
      [WaitStep.stabilityDelay ANIMATION_DELAY] else []) ++
  ((if enabled then [WaitStep.enabledCheck shortTimeout] else []) ++
  (if hasText then [WaitStep.hasTextCheck shortTimeout] else [])))

theorem mem_if_singleton {α : Type} (x a : α) (c : Prop) [Decidable c] :
    x ∈ (if c then [a] else []) ↔ c ∧ x = a := by
  split_ifs with h <;> simp [h]

theorem sublist_if_singleton {α : Type} (a : α) (c : Prop) [Decidable c] :
    List.Sublist (if c then [a] else []) [a] := by
  split_ifs
  · exact List.Sublist.refl _
  · exact List.nil_sublist _

/-- C5 (amended): the fixed stability delay is applied exactly when
`stable` is explicitly requested (`conditions.stable === true`) — the
process-wide detailed-checks flag does not by itself enable it — and when
applied it occurs after the visibility wait and before the enabled and
hasText checks. -/
theorem smartWaitForElement_stability_placement (enableHealthChecks : Bool)
    (conditions : WaitConditionSet) (timeout shortTimeout : Nat) :
    ((WaitStep.stabilityDelay ANIMATION_DELAY ∈
        smartWaitForElement enableHealthChecks conditions timeout shortTimeout)
      ↔ conditions.stable = some true) ∧
    List.Sublist
      (smartWaitForElement enableHealthChecks conditions timeout shortTimeout)
      [WaitStep.visibleWait timeout, WaitStep.stabilityDelay ANIMATION_DELAY,
       WaitStep.enabledCheck shortTimeout, WaitStep.hasTextCheck shortTimeout] := by
  constructor
  · simp only [smartWaitForElement, List.mem_append, mem_if_singleton]
    rcases conditions with ⟨v, s, en, ht⟩
    rcases s with _ | b
    · simp
    · cases b <;> simp
  · exact (sublist_if_singleton _ _).append ((sublist_if_singleton _ _).append
      ((sublist_if_singleton _ _).append (sublist_if_singleton _ _)))

/-- Counterexample to C5 as stated: with the detailed-checks flag enabled
but `stable` not requested (all conditions defaulted), no stability delay
occurs — the trace is just the visibility wait. -/
theorem smartWaitForElement_flag_alone_no_stability :
    smartWaitForElement true ⟨none, none, none, none⟩ 30000 15000 =
      [WaitStep.visibleWait 30000] ∧
    ¬ (WaitStep.stabilityDelay ANIMATION_DELAY ∈
        smartWaitForElement true ⟨none, none, none, none⟩ 30000 15000) := by
  constructor
  · rfl
  · decide

/-! ## Element references and wrapped error messages
(`ElementHelper.createErrorMessage`, element.helper.ts 98-101) -/

/-- String selector or pre-resolved Locator. -/
inductive ElemRef
  | sel (s : String)
  | loc
  deriving Repr, DecidableEq

/-- The `elementDesc` rendering inside `createErrorMessage`. -/
def elementDesc : ElemRef → String
  | ElemRef.sel s => "selector \"" ++ s ++ "\""
  | ElemRef.loc => "Locator object"

/-- `ElementHelper.createErrorMessage` (element.helper.ts 98-101). -/
def createErrorMessage (operation : String) (element : ElemRef)
    (error : String) : String :=
  operation ++ " failed for " ++ elementDesc element ++
    (if error = "" then "" else ": " ++ error)

/-- The wrapping `catch` of the facade operations: a thrown message is
replaced by the enriched message naming the operation and the element. -/
def wrapError {α : Type} (operation : String) (element : ElemRef) :
    Except String α → Except String α
  | Except.ok v => Except.ok v
  | Except.error msg =>
    Except.error (createErrorMessage operation element msg)

theorem hasSubStr_op_createErrorMessage (op : String) (e : ElemRef)
    (m : String) : hasSubStr op (createErrorMessage op e m) = true := by
  unfold hasSubStr createErrorMessage
  rw [strData_append, strData_append, strData_append,
    List.append_assoc, List.append_assoc]
  exact hasSub_of_prefOf _ _ (prefOf_append _ _ _ (prefOf_self _))

theorem hasSubStr_desc_createErrorMessage (op : String) (e : ElemRef)
    (m : String) :
    hasSubStr (elementDesc e) (createErrorMessage op e m) = true := by
  unfold hasSubStr createErrorMessage
  rw [strData_append, strData_append, strData_append, List.append_assoc]
  exact hasSub_append_right _ _ _
    (hasSub_of_prefOf _ _ (prefOf_append _ _ _ (prefOf_self _)))

/-! ## toggleCheckbox (`ElementHelper.toggleCheckbox`, element.helper.ts 812-838) -/

/-- A checkbox as the facade sees it: whether the visibility wait succeeds
and its current determinate checked state. -/
structure CheckboxState where
  visible : Bool
  checked : Bool
  deriving Repr, DecidableEq

/-- `ElementHelper.toggleCheckbox` (element.helper.ts 812-838): wait for
display (boolean, never throws), throw the wrapped not-visible error if it
fails, otherwise read the checked state and uncheck when checked / check
when unchecked. -/
def toggleCheckbox (element : ElemRef) (index : Nat) (e : CheckboxState) :
    Except String CheckboxState :=
  if e.visible = false then
    Except.error (createErrorMessage "Toggle checkbox" element
      ("Element not visible at index " ++ toString index))
  else if e.checked then Except.ok { e with checked := false }
  else Except.ok { e with checked := true }

/-- C6: one `toggleCheckbox` call on a visible checkbox with a determinate
checked state inverts that state, so two calls in succession restore the
original state. -/
theorem toggleCheckbox_twice_restores (element : ElemRef) (index : Nat)
    (e : CheckboxState) (h : e.visible = true) :
    toggleCheckbox element index e = Except.ok { e with checked := !e.checked } ∧
    (toggleCheckbox element index e).bind (toggleCheckbox element index) =
      Except.ok e := by
  obtain ⟨v, c⟩ := e
  simp only at h
  subst h
  cases c <;> simp [toggleCheckbox, Except.bind]

/-- Witness for C6's theorem: an unchecked visible checkbox is checked by
one toggle and restored by a second. -/
theorem toggleCheckbox_twice_restores_witness :
    toggleCheckbox (ElemRef.sel "#comment-check") 0 ⟨true, false⟩ =
      Except.ok ⟨true, true⟩ ∧
    (toggleCheckbox (ElemRef.sel "#comment-check") 0 ⟨true, false⟩).bind
        (toggleCheckbox (ElemRef.sel "#comment-check") 0) =
      Except.ok ⟨true, false⟩ :=
  toggleCheckbox_twice_restores (ElemRef.sel "#comment-check") 0
    ⟨true, false⟩ rfl

/-! ## Read operations (element.helper.ts 878-895, 956-971, 985-1001) -/

/-- JS `a || b` on strings: the empty string is falsy. -/
def jsOrStr (a b : String) : String :=
  if a = "" then b else a

/-- JS `String.prototype.trim`. -/
def jsTrim (s : String) : String :=
  String.mk
    (((s.data.dropWhile Char.isWhitespace).reverse.dropWhile
      Char.isWhitespace).reverse)

/-- An element as the read operations see it: the element reference, the
outcomes of the visibility/attachment waits, and what the read primitives
return (`null` is `none`). -/
structure ReadTarget where
  ref : ElemRef
  visibleWait : Except String Unit
  attachedWait : Except String Unit
  textContent : Option String
  inputValueRes : String
  getAttr : String → Option String

/-- `ElementHelper.getElementText` (element.helper.ts 878-895):
wait visible, then `(text || '').trim()`; any throw is wrapped. -/
def getElementText (t : ReadTarget) : Except String String :=
  wrapError "Get text" t.ref
    (t.visibleWait.bind fun _ => Except.ok (jsTrim (t.textContent.getD "")))

/-- `ElementHelper.getInputValue` (element.helper.ts 956-971):
wait visible, then `inputValue() || ''`; any throw is wrapped. -/
def getInputValue (t : ReadTarget) : Except String String :=
  wrapError "Get input value" t.ref
    (t.visibleWait.bind fun _ => Except.ok (jsOrStr t.inputValueRes ""))

/-- `ElementHelper.getElementAttribute` (element.helper.ts 985-1001):
wait attached, then `getAttribute(attr) ?? ''`; any throw is wrapped. -/
def getElementAttribute (t : ReadTarget) (attrName : String) :
    Except String String :=
  wrapError ("Get attribute \"" ++ attrName ++ "\"") t.ref
    (t.attachedWait.bind fun _ => Except.ok ((t.getAttr attrName).getD ""))

/-- C7: on a resolved element whose wait succeeds but which holds no data,
each read operation returns the empty string rather than throwing; when the
wait fails, each throws the wrapped error, whose message contains the
operation name and the element descriptor. -/
theorem read_operations_defaults_and_errors (t : ReadTarget)
    (attrName : String) :
    (t.visibleWait = Except.ok () →
      (t.textContent = none ∨ t.textContent = some "") →
      getElementText t = Except.ok "") ∧
    (t.visibleWait = Except.ok () → t.inputValueRes = "" →
      getInputValue t = Except.ok "") ∧
    (t.attachedWait = Except.ok () → t.getAttr attrName = none →
      getElementAttribute t attrName = Except.ok "") ∧
    (∀ m, t.visibleWait = Except.error m →
      getElementText t = Except.error (createErrorMessage "Get text" t.ref m) ∧
      getInputValue t =
        Except.error (createErrorMessage "Get input value" t.ref m)) ∧
    (∀ m, t.attachedWait = Except.error m →
      getElementAttribute t attrName = Except.error
        (createErrorMessage ("Get attribute \"" ++ attrName ++ "\"") t.ref m)) ∧
    (∀ op m, hasSubStr op (createErrorMessage op t.ref m) = true ∧
      hasSubStr (elementDesc t.ref) (createErrorMessage op t.ref m) = true) := by
  refine ⟨?_, ?_, ?_, ?_, ?_, fun op m =>
    ⟨hasSubStr_op_createErrorMessage op t.ref m,
     hasSubStr_desc_createErrorMessage op t.ref m⟩⟩
  · intro hw hd
    rcases hd with hd | hd <;> simp [getElementText, wrapError, Except.bind, hw, hd, jsTrim]
  · intro hw hd
    simp [getInputValue, wrapError, Except.bind, hw, hd, jsOrStr]
  · intro hw hd
    simp [getElementAttribute, wrapError, Except.bind, hw, hd]
  · intro m hw
    constructor <;> simp [getElementText, getInputValue, wrapError, Except.bind, hw]
  · intro m hw
    simp [getElementAttribute, wrapError, Except.bind, hw]

/-- Witness for C7's theorem: an empty resolved element returns `""` from
all three reads; a visibility-timeout element throws the wrapped message. -/
theorem read_operations_defaults_and_errors_witness :
    getElementText ⟨ElemRef.sel "#post-title", Except.ok (), Except.ok (),
        none, "", fun _ => none⟩ = Except.ok "" ∧
    getInputValue ⟨ElemRef.sel "#post-title", Except.ok (), Except.ok (),
        none, "", fun _ => none⟩ = Except.ok "" ∧
    getElementAttribute ⟨ElemRef.sel "#post-title", Except.ok (),
        Except.ok (), none, "", fun _ => none⟩ "href" = Except.ok "" ∧
    getElementText ⟨ElemRef.sel "#gone", Except.error "Timeout 10000ms exceeded",
        Except.ok (), none, "", fun _ => none⟩ =
      Except.error (createErrorMessage "Get text" (ElemRef.sel "#gone")
        "Timeout 10000ms exceeded") := by
  refine ⟨(read_operations_defaults_and_errors _ "href").1 rfl (Or.inl rfl),
    (read_operations_defaults_and_errors _ "href").2.1 rfl rfl,
    (read_operations_defaults_and_errors _ "href").2.2.1 rfl rfl,
    ((read_operations_defaults_and_errors _ "href").2.2.2.1
      "Timeout 10000ms exceeded" rfl).1⟩

/-! ## Diagnostic Logger (`SmartLogger`, ai-context.utils.ts 355-851)

The process-wide singleton state (`logs`, `currentTest`) becomes an explicit
`LoggerState` threaded through the operations; the log id and timestamp
(`Date.now` + randomness, `new Date().toISOString()`) are environment inputs
passed in by the caller.  The `context` object is modelled with the fields
the user-action logging path writes (`element`, `value`, `step`); the JSON
rendering of exported attachments is abstracted to the lists of entries each
attachment serializes. -/

/-- The `LogLevel` union (ai-context.utils.ts 854). -/
inductive LogLevel
  | INFO
  | WARN
  | ERROR
  | DEBUG
  | ACTION
  | NAVIGATION
  | PASS
  | FAIL
  deriving Repr, DecidableEq

/-- The `LogCategory` union (ai-context.utils.ts 855). -/
inductive LogCategory
  | USER_ACTION
  | NAVIGATION
  | API
  | ASSERTION
  | TIMING
  | PERFORMANCE
  | ERROR
  | GENERAL
  deriving Repr, DecidableEq

/-- The literal name of a level, as it appears in the TS union. -/
def levelName : LogLevel → String
  | LogLevel.INFO => "INFO"
  | LogLevel.WARN => "WARN"
  | LogLevel.ERROR => "ERROR"
  | LogLevel.DEBUG => "DEBUG"
  | LogLevel.ACTION => "ACTION"
  | LogLevel.NAVIGATION => "NAVIGATION"
  | LogLevel.PASS => "PASS"
  | LogLevel.FAIL => "FAIL"

/-- `SmartLogger.categorizeLog` (ai-context.utils.ts 600-612). -/
def categorizeLog (message : String) (level : LogLevel) : LogCategory :=
  let msg := jsToLower message
  if hasSubStr "click" msg || hasSubStr "type" msg || hasSubStr "select" msg then
    LogCategory.USER_ACTION
  else if hasSubStr "navigate" msg || hasSubStr "page" msg || hasSubStr "url" msg then
    LogCategory.NAVIGATION
  else if hasSubStr "api" msg || hasSubStr "request" msg || hasSubStr "response" msg then
    LogCategory.API
  else if hasSubStr "assert" msg || hasSubStr "expect" msg || hasSubStr "verify" msg then
    LogCategory.ASSERTION
  else if hasSubStr "wait" msg || hasSubStr "timeout" msg then
    LogCategory.TIMING
  else if hasSubStr "performance" msg || hasSubStr "load" msg || hasSubStr "speed" msg then
    LogCategory.PERFORMANCE
  else if level = LogLevel.ERROR ∨ level = LogLevel.FAIL then
    LogCategory.ERROR
  else LogCategory.GENERAL

/-- The `context` object of a log entry, restricted to the fields written by
the user-action logging path (`{element, value, step}`). -/
structure LogContext where
  element : Option String
  value : Option String
  step : Option Nat
  deriving Repr, DecidableEq

/-- `SmartLogger.generateTags` (ai-context.utils.ts 614-624), over the
modelled context fields: the level tag, `element-interaction` when the
context names an element, and `visual` on screenshot messages. -/
def generateTags (message : String) (level : LogLevel) (ctx : LogContext) :
    List String :=
  [jsToLower (levelName level)] ++
  (if ctx.element.isSome then ["element-interaction"] else []) ++
  (if hasSubStr "screenshot" message then ["visual"] else [])

/-- A `LogEntry` (ai-context.utils.ts 857-866). -/
structure LogEntry where
  id : String
  timestamp : String
  level : LogLevel
  message : String
  testName : String
  context : LogContext
  category : LogCategory
  tags : List String
  deriving Repr, DecidableEq

/-- The `SmartLogger` singleton state: the process-wide append-only buffer
and the currently active test-context name. -/
structure LoggerState where
  logs : List LogEntry
  currentTest : String
  deriving Repr, DecidableEq

namespace SmartLogger

/-- `SmartLogger.log` (ai-context.utils.ts 370-386): append one categorized,
tagged entry for the current test context. -/
def log (s : LoggerState) (id timestamp : String) (level : LogLevel)
    (message : String) (ctx : LogContext) : LoggerState :=
  { s with logs := s.logs ++
      [⟨id, timestamp, level, message, s.currentTest, ctx,
        categorizeLog message level, generateTags message level ctx⟩] }

/-- `SmartLogger.sanitizeValue` (ai-context.utils.ts 669-675): mask values
containing "password" (case-insensitively) or longer than 6 characters with
asterisks of the same length. -/
def sanitizeValue (value : String) : String :=
  if hasSubStr "password" (jsToLower value) = true ∨ value.length > 6 then
    String.mk (List.replicate value.length '*')
  else value

/-- `SmartLogger.getCurrentStepNumber` (ai-context.utils.ts 665-667). -/
def getCurrentStepNumber (s : LoggerState) : Nat :=
  (s.logs.filter fun l =>
    l.testName == s.currentTest && l.level == LogLevel.ACTION).length + 1

/-- `SmartLogger.logUserAction` (ai-context.utils.ts 391-397): log an ACTION
entry; a truthy value is sanitized before being stored, a falsy one is
stored as `undefined`. -/
def logUserAction (s : LoggerState) (id timestamp : String) (action : String)
    (element : Option String) (value : Option String) : LoggerState :=
  log s id timestamp LogLevel.ACTION ("User " ++ action)
    ⟨element,
     (match value with
      | some v => if v = "" then none else some (sanitizeValue v)
      | none => none),
     some (getCurrentStepNumber s)⟩

/-- `SmartLogger.clearTestLogs` (ai-context.utils.ts 589-591): keep exactly
the entries whose test name differs from the currently active test. -/
def clearTestLogs (s : LoggerState) : LoggerState :=
  { s with logs := s.logs.filter fun l => l.testName != s.currentTest }

/-- The part of `SmartLogger.generateTestSummary` (ai-context.utils.ts
508-525) that the export shape depends on: the current test's entries and
its error/warning sublists. -/
structure TestSummary where
  testName : String
  totalLogs : Nat
  errors : List LogEntry
  warnings : List LogEntry
  deriving Repr, DecidableEq

/-- `SmartLogger.generateTestSummary` (ai-context.utils.ts 508-525),
restricted to the modelled fields; it filters the buffer to the currently
active test context. -/
def generateTestSummary (s : LoggerState) : TestSummary :=
  let testLogs := s.logs.filter fun l => l.testName == s.currentTest
  ⟨s.currentTest, testLogs.length,
   testLogs.filter (fun l => l.level == LogLevel.ERROR),
   testLogs.filter (fun l => l.level == LogLevel.WARN)⟩

/-- The attachments produced by `SmartLogger.exportForReporting`
(ai-context.utils.ts 530-584), with each attachment's content abstracted to
the entries it serializes: the Detailed Test Logs attachment renders the
whole buffer (`JSON.stringify(this.logs)`), the summary the current test's
view, the User Actions Log all ACTION entries, and the error analysis is
present only when the summary holds errors. -/
structure ReportExport where
  detailedLogs : List LogEntry
  summary : TestSummary
  actionSteps : List LogEntry
  errorAnalysis : Option (List LogEntry)
  deriving Repr, DecidableEq

/-- `SmartLogger.exportForReporting` (ai-context.utils.ts 530-584). -/
def exportForReporting (s : LoggerState) : ReportExport :=
  let summary := generateTestSummary s
  ⟨s.logs, summary,
   s.logs.filter (fun l => l.level == LogLevel.ACTION),
   if summary.errors.isEmpty then none else some summary.errors⟩

end SmartLogger

/-- C8: `clearTestLogs` removes exactly the buffered entries tagged with the
currently active test context; entries of other contexts are untouched and
remain in the Detailed Test Logs content of `exportForReporting`. -/
theorem clearTestLogs_scoped_to_current_context (s : LoggerState)
    (l : LogEntry) :
    (l ∈ (SmartLogger.clearTestLogs s).logs ↔
      l ∈ s.logs ∧ l.testName ≠ s.currentTest) ∧
    (SmartLogger.clearTestLogs s).currentTest = s.currentTest ∧
    (l ∈ s.logs → l.testName ≠ s.currentTest →
      l ∈ (SmartLogger.exportForReporting (SmartLogger.clearTestLogs s)).detailedLogs) := by
  refine ⟨?_, rfl, ?_⟩
  · simp [SmartLogger.clearTestLogs, List.mem_filter]
  · intro hmem hname
    simp [SmartLogger.exportForReporting, SmartLogger.clearTestLogs,
      List.mem_filter, hmem, hname]

/-- Witness for C8's theorem: a buffer holding one entry of "dashboard test"
and one of "categories test", with "categories test" active: the dashboard
entry survives `clearTestLogs` and stays exported. -/
theorem clearTestLogs_scoped_to_current_context_witness :
    ((⟨"log_1", "t1", LogLevel.INFO, "navigated", "dashboard test",
        ⟨none, none, none⟩, LogCategory.GENERAL, ["info"]⟩ : LogEntry) ∈
      (SmartLogger.clearTestLogs
        ⟨[⟨"log_1", "t1", LogLevel.INFO, "navigated", "dashboard test",
            ⟨none, none, none⟩, LogCategory.GENERAL, ["info"]⟩,
          ⟨"log_2", "t2", LogLevel.INFO, "clicked", "categories test",
            ⟨none, none, none⟩, LogCategory.GENERAL, ["info"]⟩],
         "categories test"⟩).logs ↔
      (⟨"log_1", "t1", LogLevel.INFO, "navigated", "dashboard test",
        ⟨none, none, none⟩, LogCategory.GENERAL, ["info"]⟩ : LogEntry) ∈
        ([⟨"log_1", "t1", LogLevel.INFO, "navigated", "dashboard test",
            ⟨none, none, none⟩, LogCategory.GENERAL, ["info"]⟩,
          ⟨"log_2", "t2", LogLevel.INFO, "clicked", "categories test",
            ⟨none, none, none⟩, LogCategory.GENERAL, ["info"]⟩] :
          List LogEntry) ∧
        "dashboard test" ≠ "categories test") ∧
    (SmartLogger.clearTestLogs
      ⟨[⟨"log_1", "t1", LogLevel.INFO, "navigated", "dashboard test",
          ⟨none, none, none⟩, LogCategory.GENERAL, ["info"]⟩,
        ⟨"log_2", "t2", LogLevel.INFO, "clicked", "categories test",
          ⟨none, none, none⟩, LogCategory.GENERAL, ["info"]⟩],
       "categories test"⟩).currentTest = "categories test" ∧
    (⟨"log_1", "t1", LogLevel.INFO, "navigated", "dashboard test",
        ⟨none, none, none⟩, LogCategory.GENERAL, ["info"]⟩ : LogEntry) ∈
      (SmartLogger.exportForReporting (SmartLogger.clearTestLogs
        ⟨[⟨"log_1", "t1", LogLevel.INFO, "navigated", "dashboard test",
            ⟨none, none, none⟩, LogCategory.GENERAL, ["info"]⟩,
          ⟨"log_2", "t2", LogLevel.INFO, "clicked", "categories test",
            ⟨none, none, none⟩, LogCategory.GENERAL, ["info"]⟩],
         "categories test"⟩)).detailedLogs := by
  have h := clearTestLogs_scoped_to_current_context
    ⟨[⟨"log_1", "t1", LogLevel.INFO, "navigated", "dashboard test",
        ⟨none, none, none⟩, LogCategory.GENERAL, ["info"]⟩,
      ⟨"log_2", "t2", LogLevel.INFO, "clicked", "categories test",
        ⟨none, none, none⟩, LogCategory.GENERAL, ["info"]⟩],
     "categories test"⟩
    ⟨"log_1", "t1", LogLevel.INFO, "navigated", "dashboard test",
      ⟨none, none, none⟩, LogCategory.GENERAL, ["info"]⟩
  exact ⟨h.1, h.2.1, h.2.2 (by decide) (by decide)⟩

/-! ## enterValue and the value-verification error path
(`ElementHelper.enterValue`, element.helper.ts 569-607)

`enterValue` first logs the fill action (value sanitized), then runs its
fill closure through the Retry Engine, and on failure buffers the error via
`SmartLogger.logError` before rethrowing the wrapped message.  With value
verification enabled, the closure's read-back mismatch error
(element.helper.ts 595) embeds the raw expected and actual values.
`retryOperationLogged` is `ElementHelper.retryOperation` once more
(element.helper.ts 107-168): `retryOperation` above models the loop's
control flow and schedule, this version additionally threads the
`SmartLogger` calls of its body so that what reaches the buffer can be
stated.  The ids and timestamps of emitted entries, the rendered
elapsed-time text and the slow-operation verdict of performance monitoring
are environment inputs indexed by attempt. -/

/-- `SmartLogger.logError` (ai-context.utils.ts 441-474): buffer an ERROR
entry whose message is the error's message (the error-context object and
the optional page inspection attach data none of the claims read). -/
def SmartLogger.logError (s : LoggerState) (id timestamp : String)
    (errMsg : String) : LoggerState :=
  SmartLogger.log s id timestamp LogLevel.ERROR errMsg ⟨none, none, none⟩

/-- The value-verification mismatch error thrown at element.helper.ts 595. -/
def verificationMismatchMessage (value actualValue : String) : String :=
  "Value verification failed. Expected: \"" ++ value ++ "\", Actual: \"" ++
    actualValue ++ "\""

/-- The input element as `enterValue`'s retried closure sees it on attempt
`n`: the outcome of the visibility wait, of `fill()`, and the value
`inputValue()` reads back. -/
structure FillTarget where
  visibleWait : Nat → Except String Unit
  fillRes : Nat → Except String Unit
  readback : Nat → String

/-- The closure `enterValue` passes to the Retry Engine
(element.helper.ts 582-601), threading the logger state: wait visible,
fill, then — with value verification enabled — read the value back and
throw the mismatch error on disagreement, else log the success message. -/
def fillAttemptOp (enableValueVerification : Bool) (t : FillTarget)
    (elementSelector value : String) (metaOp : Nat → String × String)
    (n : Nat) (s : LoggerState) : LoggerState × Except String Unit :=
  match t.visibleWait n with
  | Except.error m => (s, Except.error m)
  | Except.ok _ =>
    match t.fillRes n with
    | Except.error m => (s, Except.error m)
    | Except.ok _ =>
      if enableValueVerification then
        if t.readback n ≠ value then
          (s, Except.error (verificationMismatchMessage value (t.readback n)))
        else
          (SmartLogger.log s (metaOp n).1 (metaOp n).2 LogLevel.INFO
            ("Successfully filled " ++ elementSelector ++ " with verified value")
            ⟨none, none, none⟩,
           Except.ok ())
      else
        (SmartLogger.log s (metaOp n).1 (metaOp n).2 LogLevel.INFO
          ("Successfully filled " ++ elementSelector) ⟨none, none, none⟩,
         Except.ok ())

/-- Loop body of `ElementHelper.retryOperation` with its `SmartLogger`
calls (element.helper.ts 116-165): the performance-monitoring success log,
the unrecoverable-failure log, the final-failure log — whose message ends
with `: ${lastError.message}` in both monitoring modes — and the per-retry
warning. -/
def retryLoggedAux {T : Type}
    (op : Nat → LoggerState → LoggerState × Except String T)
    (operationName : String) (maxRetries baseDelay : Nat)
    (enablePerfMonitoring : Bool) (slow : Nat → Bool)
    (totalTimeStr : Nat → String) (meta : Nat → String × String) :
    Nat → Nat → LoggerState → LoggerState × RunLog T
  | _, 0, s => (s, ⟨0, [], Except.error ""⟩)
  | attempt, fuel + 1, s =>
    match op attempt s with
    | (s1, Except.ok v) =>
      ((if enablePerfMonitoring && (decide (attempt > 1) || slow attempt) then
          SmartLogger.log s1 (meta attempt).1 (meta attempt).2 LogLevel.INFO
            (operationName ++ " completed (" ++
              (if attempt > 1 then "with retries" else "slow operation") ++ ")")
            ⟨none, none, none⟩
        else s1),
       ⟨1, [], Except.ok v⟩)
    | (s1, Except.error e) =>
      if isUnrecoverableError e then
        (SmartLogger.log s1 (meta attempt).1 (meta attempt).2 LogLevel.ERROR
          (operationName ++ " failed (unrecoverable): " ++ e)
          ⟨none, none, none⟩,
         ⟨1, [], Except.error e⟩)
      else if fuel = 0 then
        (SmartLogger.log s1 (meta attempt).1 (meta attempt).2 LogLevel.ERROR
          (if enablePerfMonitoring then
            operationName ++ " failed after " ++ toString maxRetries ++
              " attempts in " ++ totalTimeStr attempt ++ "ms: " ++ e
          else
            operationName ++ " failed after " ++ toString maxRetries ++
              " attempts: " ++ e)
          ⟨none, none, none⟩,
         ⟨1, [], Except.error e⟩)
      else
        let delay := if attempt = 1 then 100 else baseDelay * 2 ^ (attempt - 2)
        let s2 := SmartLogger.log s1 (meta attempt).1 (meta attempt).2
          LogLevel.WARN
          (operationName ++ " attempt " ++ toString attempt ++
            " failed, retrying in " ++ toString delay ++ "ms")
          ⟨none, none, none⟩
        let rest := retryLoggedAux op operationName maxRetries baseDelay
          enablePerfMonitoring slow totalTimeStr meta (attempt + 1) fuel s2
        (rest.1, ⟨rest.2.invocations + 1, delay :: rest.2.delays, rest.2.result⟩)

/-- `ElementHelper.retryOperation` with logging (element.helper.ts 107-168). -/
def retryOperationLogged {T : Type}
    (op : Nat → LoggerState → LoggerState × Except String T)
    (operationName : String) (maxRetries baseDelay : Nat)
    (enablePerfMonitoring : Bool) (slow : Nat → Bool)
    (totalTimeStr : Nat → String) (meta : Nat → String × String)
    (s : LoggerState) : LoggerState × RunLog T :=
  retryLoggedAux op operationName maxRetries baseDelay enablePerfMonitoring
    slow totalTimeStr meta 1 maxRetries s

/-- The environment inputs of one `enterValue` call: the two flags, the
retry configuration, the performance-monitoring inputs, and the ids and
timestamps of the entries each logging site may emit. -/
structure EnterValueEnv where
  enableValueVerification : Bool
  enablePerfMonitoring : Bool
  maxRetries : Nat
  baseDelay : Nat
  slow : Nat → Bool
  totalTimeStr : Nat → String
  metaAction : String × String
  metaErr : String × String
  metaOp : Nat → String × String
  metaEngine : Nat → String × String

/-- `ElementHelper.enterValue` (element.helper.ts 569-607): log the fill
action (value sanitized by `logUserAction`), run the fill closure through
the Retry Engine, and on failure buffer the error via `SmartLogger.logError`
and rethrow the wrapped message. -/
def enterValue (env : EnterValueEnv) (t : FillTarget)
    (elementSelector value : String) (s : LoggerState) :
    LoggerState × Except String Unit :=
  let s1 := SmartLogger.logUserAction s env.metaAction.1 env.metaAction.2
    "fill" (some elementSelector) (some value)
  let run := retryOperationLogged
    (fillAttemptOp env.enableValueVerification t elementSelector value env.metaOp)
    ("Enter value in " ++ elementSelector) env.maxRetries env.baseDelay
    env.enablePerfMonitoring env.slow env.totalTimeStr env.metaEngine s1
  match run.2.result with
  | Except.ok _ => (run.1, Except.ok ())
  | Except.error m =>
    (SmartLogger.logError run.1 env.metaErr.1 env.metaErr.2 m,
     Except.error (createErrorMessage "Enter value" (ElemRef.sel elementSelector) m))

theorem hasSubStr_value_verificationMismatchMessage (value actualValue : String) :
    hasSubStr value (verificationMismatchMessage value actualValue) = true := by
  unfold hasSubStr verificationMismatchMessage
  simp only [strData_append, List.append_assoc]
  exact hasSub_append_right _ _ _
    (hasSub_of_prefOf _ _ (prefOf_append _ _ _ (prefOf_self _)))

/-- Buffer-extension steps compose. -/
theorem logs_extend_trans {a b c : List LogEntry}
    (h1 : ∃ t, b = a ++ t) (h2 : ∃ t, c = b ++ t) : ∃ t, c = a ++ t := by
  obtain ⟨t1, rfl⟩ := h1
  obtain ⟨t2, rfl⟩ := h2
  exact ⟨t1 ++ t2, by simp⟩

/-- The fill closure only appends to the buffer. -/
theorem fillAttemptOp_logs_extend (enableValueVerification : Bool)
    (t : FillTarget) (elementSelector value : String)
    (metaOp : Nat → String × String) :
    ∀ n s, ∃ tail,
      ((fillAttemptOp enableValueVerification t elementSelector value metaOp
        n s).1).logs = s.logs ++ tail := by
  intro n s
  cases hv : t.visibleWait n with
  | error m => exact ⟨[], by simp [fillAttemptOp, hv]⟩
  | ok u =>
    cases hf : t.fillRes n with
    | error m => exact ⟨[], by simp [fillAttemptOp, hv, hf]⟩
    | ok u2 =>
      cases enableValueVerification with
      | false =>
        have hx : (fillAttemptOp false t elementSelector value metaOp n s).1 =
            SmartLogger.log s (metaOp n).1 (metaOp n).2 LogLevel.INFO
              ("Successfully filled " ++ elementSelector) ⟨none, none, none⟩ := by
          simp [fillAttemptOp, hv, hf]
        rw [hx]
        exact ⟨_, rfl⟩
      | true =>
        by_cases hr : t.readback n = value
        · have hx : (fillAttemptOp true t elementSelector value metaOp n s).1 =
              SmartLogger.log s (metaOp n).1 (metaOp n).2 LogLevel.INFO
                ("Successfully filled " ++ elementSelector ++
                  " with verified value") ⟨none, none, none⟩ := by
            simp [fillAttemptOp, hv, hf, hr]
          rw [hx]
          exact ⟨_, rfl⟩
        · exact ⟨[], by simp [fillAttemptOp, hv, hf, hr]⟩

/-- The logging Retry Engine only appends to the buffer when its operation
does. -/
theorem retryLoggedAux_logs_extend {T : Type}
    (op : Nat → LoggerState → LoggerState × Except String T)
    (operationName : String) (maxRetries baseDelay : Nat)
    (enablePerfMonitoring : Bool) (slow : Nat → Bool)
    (totalTimeStr : Nat → String) (meta : Nat → String × String)
    (hmono : ∀ n s, ∃ tail, ((op n s).1).logs = s.logs ++ tail) :
    ∀ fuel attempt s, ∃ tail,
      ((retryLoggedAux op operationName maxRetries baseDelay
        enablePerfMonitoring slow totalTimeStr meta attempt fuel s).1).logs =
        s.logs ++ tail := by
  intro fuel
  induction fuel with
  | zero =>
    intro attempt s
    exact ⟨[], by simp [retryLoggedAux]⟩
  | succ f ih =>
    intro attempt s
    have hm := hmono attempt s
    rcases hp : op attempt s with ⟨s1, res⟩
    rw [hp] at hm
    cases res with
    | ok v =>
      refine logs_extend_trans hm ?_
      simp only [retryLoggedAux, hp]
      by_cases hperf :
          (enablePerfMonitoring && (decide (attempt > 1) || slow attempt)) = true
      · rw [if_pos hperf]
        exact ⟨_, rfl⟩
      · rw [if_neg hperf]
        exact ⟨[], by simp⟩
    | error e =>
      refine logs_extend_trans hm ?_
      simp only [retryLoggedAux, hp]
      by_cases hu : isUnrecoverableError e = true
      · rw [if_pos hu]
        exact ⟨_, rfl⟩
      · rw [if_neg hu]
        by_cases hf0 : f = 0
        · rw [if_pos hf0]
          exact ⟨_, rfl⟩
        · rw [if_neg hf0]
          exact logs_extend_trans ⟨_, rfl⟩ (ih (attempt + 1) _)

/-- `enterValue` only appends to the state produced by its fill action log. -/
theorem enterValue_logs_extend (env : EnterValueEnv) (t : FillTarget)
    (elementSelector value : String) (s : LoggerState) :
    ∃ tail, (enterValue env t elementSelector value s).1.logs =
      (SmartLogger.logUserAction s env.metaAction.1 env.metaAction.2 "fill"
        (some elementSelector) (some value)).logs ++ tail := by
  obtain ⟨t2, ht2⟩ := retryLoggedAux_logs_extend
    (fillAttemptOp env.enableValueVerification t elementSelector value env.metaOp)
    ("Enter value in " ++ elementSelector) env.maxRetries env.baseDelay
    env.enablePerfMonitoring env.slow env.totalTimeStr env.metaEngine
    (fillAttemptOp_logs_extend env.enableValueVerification t elementSelector
      value env.metaOp)
    env.maxRetries 1
    (SmartLogger.logUserAction s env.metaAction.1 env.metaAction.2 "fill"
      (some elementSelector) (some value))
  simp only [enterValue, retryOperationLogged]
  cases hres : (retryLoggedAux
      (fillAttemptOp env.enableValueVerification t elementSelector value env.metaOp)
      ("Enter value in " ++ elementSelector) env.maxRetries env.baseDelay
      env.enablePerfMonitoring env.slow env.totalTimeStr env.metaEngine 1
      env.maxRetries
      (SmartLogger.logUserAction s env.metaAction.1 env.metaAction.2 "fill"
        (some elementSelector) (some value))).2.result with
  | ok v => exact ⟨t2, ht2⟩
  | error m => exact logs_extend_trans ⟨t2, ht2⟩ ⟨_, rfl⟩

/-- One recoverable, non-final failure step of the logging Retry Engine:
log the retry warning and loop. -/
theorem retryLoggedAux_result_step {T : Type}
    (op : Nat → LoggerState → LoggerState × Except String T)
    (operationName : String) (maxRetries baseDelay : Nat)
    (enablePerfMonitoring : Bool) (slow : Nat → Bool)
    (totalTimeStr : Nat → String) (meta : Nat → String × String)
    (attempt f : Nat) (e : String) (s : LoggerState)
    (hope : op attempt s = (s, Except.error e))
    (hu : isUnrecoverableError e = false) (hf : f ≠ 0) :
    ((retryLoggedAux op operationName maxRetries baseDelay enablePerfMonitoring
      slow totalTimeStr meta attempt (f + 1) s).2).result =
    ((retryLoggedAux op operationName maxRetries baseDelay enablePerfMonitoring
      slow totalTimeStr meta (attempt + 1) f
      (SmartLogger.log s (meta attempt).1 (meta attempt).2 LogLevel.WARN
        (operationName ++ " attempt " ++ toString attempt ++
          " failed, retrying in " ++
          toString (if attempt = 1 then 100 else baseDelay * 2 ^ (attempt - 2)) ++
          "ms") ⟨none, none, none⟩)).2).result := by
  simp [retryLoggedAux, hope, hu, hf]

/-- When every attempt of the operation fails (leaving the state untouched),
the logging Retry Engine's final result is the error of one of the
attempts. -/
theorem retryLoggedAux_result_all_fail {T : Type}
    (op : Nat → LoggerState → LoggerState × Except String T)
    (err : Nat → String) (operationName : String) (maxRetries baseDelay : Nat)
    (enablePerfMonitoring : Bool) (slow : Nat → Bool)
    (totalTimeStr : Nat → String) (meta : Nat → String × String)
    (hop : ∀ n s, op n s = (s, Except.error (err n))) :
    ∀ m attempt s, ∃ k, attempt ≤ k ∧ k ≤ attempt + m ∧
      ((retryLoggedAux op operationName maxRetries baseDelay
        enablePerfMonitoring slow totalTimeStr meta attempt (m + 1) s).2).result =
        Except.error (err k) := by
  intro m
  induction m with
  | zero =>
    intro attempt s
    refine ⟨attempt, Nat.le_refl _, by omega, ?_⟩
    cases hu : isUnrecoverableError (err attempt) <;>
      simp [retryLoggedAux, hop attempt s, hu]
  | succ g ih =>
    intro attempt s
    cases hu : isUnrecoverableError (err attempt) with
    | true =>
      exact ⟨attempt, Nat.le_refl _, by omega,
        by simp [retryLoggedAux, hop attempt s, hu]⟩
    | false =>
      obtain ⟨k, hk1, hk2, hk3⟩ := ih (attempt + 1)
        (SmartLogger.log s (meta attempt).1 (meta attempt).2 LogLevel.WARN
          (operationName ++ " attempt " ++ toString attempt ++
            " failed, retrying in " ++
            toString (if attempt = 1 then 100 else baseDelay * 2 ^ (attempt - 2)) ++
            "ms") ⟨none, none, none⟩)
      refine ⟨k, by omega, by omega, ?_⟩
      rw [retryLoggedAux_result_step op operationName maxRetries baseDelay
        enablePerfMonitoring slow totalTimeStr meta attempt (g + 1)
        (err attempt) s (hop attempt s) hu (Nat.succ_ne_zero g)]
      exact hk3

/-- C9 (amended): the fill action log masks every sensitive value — the
entry `enterValue` buffers for the fill stores asterisks of the value's
length, never the raw value — but when value verification is enabled and
the read-back disagrees on every attempt, the mismatch error message, which
embeds the raw value, is buffered and appears in the Detailed Test Logs
content of `exportForReporting`. -/
theorem sensitive_fill_masked_and_leak (env : EnterValueEnv) (t : FillTarget)
    (s : LoggerState) (elementSelector value : String)
    (hsens : hasSubStr "password" (jsToLower value) = true ∨ value.length > 6) :
    (∃ e : LogEntry,
      e ∈ (enterValue env t elementSelector value s).1.logs ∧
      e.level = LogLevel.ACTION ∧ e.message = "User fill" ∧
      e.context.value = some (String.mk (List.replicate value.length '*')) ∧
      SmartLogger.sanitizeValue value =
        String.mk (List.replicate value.length '*')) ∧
    (env.enableValueVerification = true → 1 ≤ env.maxRetries →
      (∀ n, t.visibleWait n = Except.ok () ∧ t.fillRes n = Except.ok () ∧
        t.readback n ≠ value) →
      ∃ l : LogEntry,
        l ∈ (SmartLogger.exportForReporting
          (enterValue env t elementSelector value s).1).detailedLogs ∧
        hasSubStr value l.message = true) := by
  have hne : ¬ (value = "") := by
    intro h
    subst h
    rcases hsens with h | h
    · exact absurd h (by decide)
    · simp at h
  have hmask : SmartLogger.sanitizeValue value =
      String.mk (List.replicate value.length '*') := by
    simp [SmartLogger.sanitizeValue, hsens]
  constructor
  · have hm1 : ∃ e : LogEntry,
        e ∈ (SmartLogger.logUserAction s env.metaAction.1 env.metaAction.2
          "fill" (some elementSelector) (some value)).logs ∧
        e.level = LogLevel.ACTION ∧ e.message = "User fill" ∧
        e.context.value = some (String.mk (List.replicate value.length '*')) := by
      simp only [SmartLogger.logUserAction, SmartLogger.log]
      refine ⟨_, List.mem_append_right _ (List.mem_singleton_self _), rfl,
        ?_, ?_⟩
      · show ("User " ++ "fill" : String) = "User fill"
        decide
      · simp [hne, hmask]
    obtain ⟨e, hmem, hlvl, hmsg, hctx⟩ := hm1
    obtain ⟨tail, htail⟩ := enterValue_logs_extend env t elementSelector value s
    refine ⟨e, ?_, hlvl, hmsg, hctx, hmask⟩
    rw [htail]
    exact List.mem_append_left _ hmem
  · intro hv hmax hfail
    have hop : ∀ n s2, fillAttemptOp env.enableValueVerification t
        elementSelector value env.metaOp n s2 =
        (s2, Except.error (verificationMismatchMessage value (t.readback n))) := by
      intro n s2
      obtain ⟨h1, h2, h3⟩ := hfail n
      simp [fillAttemptOp, h1, h2, hv, h3]
    obtain ⟨k, hk1, hk2, hres⟩ := retryLoggedAux_result_all_fail
      (fillAttemptOp env.enableValueVerification t elementSelector value env.metaOp)
      (fun n => verificationMismatchMessage value (t.readback n))
      ("Enter value in " ++ elementSelector) env.maxRetries env.baseDelay
      env.enablePerfMonitoring env.slow env.totalTimeStr env.metaEngine hop
      (env.maxRetries - 1) 1
      (SmartLogger.logUserAction s env.metaAction.1 env.metaAction.2 "fill"
        (some elementSelector) (some value))
    have hE : env.maxRetries - 1 + 1 = env.maxRetries := by omega
    rw [hE] at hres
    simp only [enterValue, retryOperationLogged]
    rw [hres]
    simp only [SmartLogger.exportForReporting, SmartLogger.logError,
      SmartLogger.log]
    refine ⟨_, List.mem_append_right _ (List.mem_singleton_self _), ?_⟩
    exact hasSubStr_value_verificationMismatchMessage value (t.readback k)

/-- A configuration on which the original claim fails: value verification
on, performance monitoring off, the default single attempt, a field whose
read-back comes out empty. -/
def leakEnv : EnterValueEnv :=
  ⟨true, false, 1, 500, fun _ => false, fun _ => "", ("log_1", "t1"),
   ("log_3", "t3"), fun _ => ("log_op", "top"), fun _ => ("log_2", "t2")⟩

/-- The mismatching fill target of the counterexample. -/
def leakTarget : FillTarget :=
  ⟨fun _ => Except.ok (), fun _ => Except.ok (), fun _ => ""⟩

/-- Counterexample to C9 as stated: filling "password123456" (a sensitive
value) with value verification enabled and an empty read-back buffers the
verification-mismatch error message, which embeds the raw value, so the
Detailed Test Logs attachment of `exportForReporting` contains the raw
value. -/
theorem enterValue_verification_mismatch_leaks_raw_value :
    hasSubStr "password" (jsToLower "password123456") = true ∧
    ((SmartLogger.exportForReporting
      (enterValue leakEnv leakTarget "#new-password" "password123456"
        ⟨[], "categories test"⟩).1).detailedLogs.any
      fun l => hasSubStr "password123456" l.message) = true := by
  constructor
  · decide
  · decide

/-- Witness for C9's amended theorem, at the counterexample configuration:
the fill action entry stores the 14-asterisk mask, and a buffered entry's
message contains the raw value. -/
theorem sensitive_fill_masked_and_leak_witness :
    (∃ e : LogEntry,
      e ∈ (enterValue leakEnv leakTarget "#new-password" "password123456"
        ⟨[], "categories test"⟩).1.logs ∧
      e.level = LogLevel.ACTION ∧ e.message = "User fill" ∧
      e.context.value =
        some (String.mk (List.replicate ("password123456".length) '*')) ∧
      SmartLogger.sanitizeValue "password123456" =
        String.mk (List.replicate ("password123456".length) '*')) ∧
    (∃ l : LogEntry,
      l ∈ (SmartLogger.exportForReporting
        (enterValue leakEnv leakTarget "#new-password" "password123456"
          ⟨[], "categories test"⟩).1).detailedLogs ∧
      hasSubStr "password123456" l.message = true) := by
  have h := sensitive_fill_masked_and_leak leakEnv leakTarget
    ⟨[], "categories test"⟩ "#new-password" "password123456"
    (Or.inl (by decide))
  refine ⟨h.1, h.2 rfl (by decide) (fun n => ⟨rfl, rfl, ?_⟩)⟩
  show ("" : String) ≠ "password123456"
  decide

/-! ## Failure-suggestion generation
(`ErrorInspector.generateFailureSuggestions`, environment.utils.ts 402-451)

The `PageInspectionReport` is modelled with the fields the generator reads.
Values of `report.elements` that are plain booleans in the TS report (the
`exists_*` checks) have no `visible` property (JS `undefined`, falsy); they
are modelled as entries with `visible := false`, on which both element
branches are skipped exactly as in the source. -/

/-- One entry of `report.elements` as the generator reads it. -/
structure InspElem where
  visible : Bool
  text : String
  deriving Repr, DecidableEq

/-- One entry of `report.network`. -/
structure NetRequest where
  url : String
  status : Nat
  method : String
  deriving Repr, DecidableEq

/-- One entry of `report.blockingElements`. -/
structure BlockingElem where
  selector : String
  reason : String
  deriving Repr, DecidableEq

/-- `report.loadState` (environment.utils.ts 326-337). -/
structure LoadState where
  readyState : String
  loadEventFired : Bool
  domContentLoaded : Bool
  networkIdle : Bool
  deriving Repr, DecidableEq

/-- `PageInspectionReport` (environment.utils.ts 457-475), restricted to the
fields `generateFailureSuggestions` reads (`url`, `title`, `elements`,
`network`, `jsErrors`, `blockingElements`, `loadState`; the last three are
optional in the TS interface). -/
structure PageInspectionReport where
  url : String
  title : String
  elements : List (String × InspElem)
  network : List NetRequest
  jsErrors : Option (List String)
  loadState : Option LoadState
  blockingElements : Option (List BlockingElem)

/-- The error-element suggestion (environment.utils.ts 416), interpolating
the element's text. -/
def errorElemSuggestion (text : String) : String :=
  "‚ùå Error message found: \"" ++ text ++ "\" - check form validation or server response"

/-- The three generic fallback suggestions (environment.utils.ts 444-448). -/
def fallbackSuggestions : List String :=
  ["üîç Check element selectors - they may have changed",
   "‚è∞ Consider adding explicit waits for dynamic content",
   "üîÑ Verify page navigation completed successfully"]

/-- The pattern-scanning phase of
`ErrorInspector.generateFailureSuggestions` (environment.utils.ts 403-441):
all suggestions pushed before the fallback check, in source order. -/
def generateFailureSuggCore (report : PageInspectionReport) : List String :=
  (if hasSubStr "wp-login.php" report.url then
    ["üîê Login page detected - check credentials and form submission"] else []) ++
  (if hasSubStr "404" report.url || hasSubStr "not found" (jsToLower report.title) then
    ["üîç 404 error detected - verify URL and routing"] else []) ++
  (report.elements.map (fun p =>
    (if hasSubStr "error" p.1 && p.2.visible then
      [errorElemSuggestion p.2.text] else []) ++
    (if hasSubStr "loading" p.1 && p.2.visible then
      ["‚è≥ Loading indicator still visible - request may be stuck or taking too long"] else []))).flatten ++
  (if report.network.any (fun req => req.status ≥ 400) then
    ["üåê Network errors detected - check API endpoints and server connectivity"] else []) ++
  (match report.jsErrors with
   | some es => if es.length > 0 then
      ["‚ö†Ô∏è JavaScript errors detected - check browser console for details"] else []
   | none => []) ++
  (match report.blockingElements with
   | some bs => if bs.length > 0 then
      ["üö´ Potentially blocking elements detected - check for modals or overlays"] else []
   | none => []) ++
  (match report.loadState with
   | some ls => if ls.readyState ≠ "complete" then
      ["‚è±Ô∏è Page not fully loaded - consider waiting for load state or specific elements"] else []
   | none => [])

/-- `ErrorInspector.generateFailureSuggestions`
(environment.utils.ts 402-451): the scanned suggestions, or the three
generic fallbacks when nothing matched. -/
def generateFailureSuggestions (report : PageInspectionReport) : List String :=
  let suggestions := generateFailureSuggCore report
  if suggestions.length = 0 then fallbackSuggestions else suggestions

/-- C10: `generateFailureSuggestions` returns a non-empty list for every
report, and when no URL, element, network, JavaScript-error, blocking or
load-state pattern matched, it returns exactly the three generic fallback
suggestions. -/
theorem generateFailureSuggestions_nonempty (report : PageInspectionReport) :
    generateFailureSuggestions report ≠ [] ∧
    (generateFailureSuggCore report = [] →
      generateFailureSuggestions report = fallbackSuggestions) := by
  constructor
  · intro h
    by_cases hc : (generateFailureSuggCore report).length = 0
    · rw [generateFailureSuggestions] at h
      simp only [hc, if_true] at h
      exact absurd h (by decide)
    · rw [generateFailureSuggestions] at h
      simp only [hc, if_false] at h
      exact hc (by rw [h]; rfl)
  · intro hc
    simp [generateFailureSuggestions, hc]

/-- Witness for C10's theorem: a blank report (no pattern matches) yields
exactly the three generic fallbacks. -/
theorem generateFailureSuggestions_nonempty_witness :
    generateFailureSuggestions ⟨"", "", [], [], none, none, none⟩ =
      fallbackSuggestions :=
  (generateFailureSuggestions_nonempty ⟨"", "", [], [], none, none, none⟩).2 rfl

end XWP
